import Mathlib

/-!
Shallow embedding of the payment API's local ledger index (`api/body.py`)
and proofs about its recording and query operations.

Modelling conventions:
* The three SQLite tables (`user_table`, `currency_table`, `tx_table`) are
  Lean lists in insertion (rowid) order.
* BLOB values (ids, keys) are byte lists (`List Nat`).  Cells of the
  transaction table's name columns are dynamically typed (`Val`), because
  the swap handler inserts raw id blobs into those TEXT columns.
* Values returned by the external collaborators (identity registry, ledger
  network) are passed in as parameters; the external contract calls that an
  operation attempts are recorded as an `ExtEvent` trace in the result.
* Python `float(s)` is embedded as an exact rational parser `pyFloat`;
  the special forms `inf`/`nan` are treated as parse failures (converting
  those with `int()` raises as well, so success/failure of the combined
  `int(float(s) * 10 ** d)` expression agrees with the source).
* Uncaught Python exceptions (the `ValueError` escaping `float`, the
  `NameError` in the swap handler) are explicit error outcomes that carry
  no machine-readable error code: the Flask error handler of the source
  only covers status codes 400/404/409.
* SQL statements commit one by one, so rows written before a later
  exception persist (the resulting store is reported alongside the error).
-/

namespace Pay

/-- A SQLite cell of dynamic type: TEXT or BLOB. -/
inductive Val where
  | text (s : String)
  | blob (b : List Nat)
  deriving DecidableEq

/-- A keypair: public and private key bytes. -/
structure KeyPair where
  publicKey : List Nat
  privateKey : List Nat
  deriving DecidableEq

/-- Row of `user_table` / `currency_table` (`payment_user_table_definition`). -/
structure IdentityRow where
  user_id : List Nat
  name : String
  public_key : List Nat
  private_key : List Nat
  deriving DecidableEq

/-- Row of `tx_table` (`payment_tx_table_definition`). -/
structure TxRow where
  tx_id : List Nat
  timestamp : Nat
  mint_id : List Nat
  from_name : Val
  to_name : Val
  amount : String
  label : String
  deriving DecidableEq

/-- The three tables of `payment_db`, each in insertion (rowid) order. -/
structure Store where
  user_table : List IdentityRow
  currency_table : List IdentityRow
  tx_table : List TxRow
  deriving DecidableEq

/-- The fixed label attached to issuance events. -/
def LABEL_JOINED : String := "__joined__"

/-- Table dispatch for the string-typed SQL of the source. -/
def Store.tableOf (st : Store) (table : String) : List IdentityRow :=
  if table = "user_table" then st.user_table
  else if table = "currency_table" then st.currency_table
  else []

/-- `Store.get_user`: `select * from <table> where user_id=?`, first row. -/
def Store.get_user (st : Store) (user_id : List Nat) (table : String) :
    Option IdentityRow :=
  (st.tableOf table).find? (fun r => decide (r.user_id = user_id))

/-- `Store.user_exists`: `select rowid from <table> where name=?` nonempty. -/
def Store.user_exists (st : Store) (name table : String) : Bool :=
  (st.tableOf table).any (fun r => decide (r.name = name))

/-- `Store.write_tx`: `insert into tx_table values (?, ?, ?, ?, ?, ?, ?)`. -/
def Store.write_tx (st : Store) (tx_id : List Nat) (timestamp : Nat)
    (mint_id : List Nat) (from_name to_name : Val) (amount label : String) :
    Store :=
  { st with tx_table :=
      st.tx_table ++ [⟨tx_id, timestamp, mint_id, from_name, to_name, amount, label⟩] }

/-- `Store.write_user`: `insert into <table> values (?, ?, ?, ?)`. -/
def Store.write_user (st : Store) (u : IdentityRow) (table : String) : Store :=
  if table = "user_table" then { st with user_table := st.user_table ++ [u] }
  else if table = "currency_table" then
    { st with currency_table := st.currency_table ++ [u] }
  else st

/-- `Store.update_user`:
`update <table> set public_key=?, private_key=? where user_id=?`. -/
def Store.update_user (st : Store) (u : IdentityRow) (table : String) : Store :=
  if table = "user_table" then
    { st with user_table := st.user_table.map (fun r =>
        if r.user_id = u.user_id then
          { r with public_key := u.public_key, private_key := u.private_key }
        else r) }
  else if table = "currency_table" then
    { st with currency_table := st.currency_table.map (fun r =>
        if r.user_id = u.user_id then
          { r with public_key := u.public_key, private_key := u.private_key }
        else r) }
  else st

/-- Whitespace characters stripped by Python `float`. -/
def isPySpace (c : Char) : Bool :=
  c = ' ' || c = '\t' || c = '\n' || c = '\r' || c = '\x0b' || c = '\x0c'

/-- Strip leading and trailing whitespace. -/
def pyStrip (cs : List Char) : List Char :=
  ((cs.dropWhile isPySpace).reverse.dropWhile isPySpace).reverse

/-- Decimal digit run to a natural number. -/
def digitsToNat (ds : List Char) : Nat :=
  ds.foldl (fun a c => a * 10 + (c.toNat - 48)) 0

/-- Python `float(s)` as an exact rational: optional surrounding whitespace,
optional sign, digits with an optional decimal point, optional exponent.
The special forms `inf`/`nan` are treated as failures here (passing those
on to `int()` raises as well).  `none` models `float(s)` raising
`ValueError`. -/
def pyFloat (s : String) : Option ℚ :=
  let cs := pyStrip s.toList
  let sn : ℚ × List Char :=
    match cs with
    | '+' :: t => (1, t)
    | '-' :: t => (-1, t)
    | _ => (1, cs)
  let ip := sn.2.takeWhile Char.isDigit
  let cs2 := sn.2.dropWhile Char.isDigit
  let fr : List Char × List Char :=
    match cs2 with
    | '.' :: t => (t.takeWhile Char.isDigit, t.dropWhile Char.isDigit)
    | _ => ([], cs2)
  if ip.isEmpty && fr.1.isEmpty then none
  else
    let mant : ℚ := (digitsToNat ip : ℚ) + (digitsToNat fr.1 : ℚ) / (10 : ℚ) ^ fr.1.length
    match fr.2 with
    | [] => some (sn.1 * mant)
    | c :: t =>
      if c = 'e' || c = 'E' then
        let es : Bool × List Char :=
          match t with
          | '+' :: t2 => (true, t2)
          | '-' :: t2 => (false, t2)
          | _ => (true, t)
        let ed := es.2.takeWhile Char.isDigit
        let rest := es.2.dropWhile Char.isDigit
        if ed.isEmpty || !rest.isEmpty then none
        else
          some (sn.1 * mant *
            (if es.1 then (10 : ℚ) ^ digitsToNat ed else 1 / (10 : ℚ) ^ digitsToNat ed))
      else none

/-- Python `int(x)` on a rational: truncation toward zero. -/
def truncRat (q : ℚ) : ℤ := q.num.tdiv (q.den : ℤ)

/-- The scaling expression `int(float(amount) * 10 ** decimal)` shared by
issue, transfer and swap (the Amount Codec); `none` exactly when the amount
string does not parse. -/
def to_units (s : String) (decimal : Nat) : Option ℤ :=
  (pyFloat s).map (fun q => truncRat (q * (10 : ℚ) ^ decimal))

/-- Shape of one element of `get_tx_list`'s `transactions` result. -/
structure TxDic where
  timestamp : Nat
  from_name : Val
  to_name : Val
  amount : String
  label : String
  deriving DecidableEq

/-- The result dictionary built from a transaction row. -/
def TxRow.toDic (r : TxRow) : TxDic :=
  ⟨r.timestamp, r.from_name, r.to_name, r.amount, r.label⟩

/-- The SQL filter of `get_tx_list`: `mint_id=?`, `timestamp>=?`, and, when
a counterparty name is given, `(from_name=? or to_name=?)` as a TEXT
comparison. -/
def txMatches (mint_id : List Nat) (name : Option String) (basetime : Nat)
    (r : TxRow) : Bool :=
  decide (r.mint_id = mint_id) && decide (basetime ≤ r.timestamp) &&
    match name with
    | none => true
    | some n => decide (r.from_name = Val.text n) || decide (r.to_name = Val.text n)

/-- The filtered rows in `order by rowid desc` order: reverse insertion
order of the matching rows. -/
def matchingTxs (st : Store) (mint_id : List Nat) (name : Option String)
    (basetime : Nat) : List TxRow :=
  (st.tx_table.filter (txMatches mint_id name basetime)).reverse

/-- Result shape of `Store.get_tx_list`. -/
structure TxListOut where
  count_before : Nat
  count_after : Int
  transactions : List TxDic
  symbol : String
  deriving DecidableEq

/-- `Store.get_tx_list`.  The mint argument appears as its `mint_id` plus
the `symbol` obtained from the external `get_currency_spec` call.  A
`limit offset, count` clause is emitted only when `count` is given, so
`offset` alone never reaches the SQL; `offset` and `basetime` default to 0.
The separate `count(*)` query is the length of the unpaginated filtered
set. -/
def Store.get_tx_list (st : Store) (mint_id : List Nat) (symbol : String)
    (name : Option String) (count offset basetime : Option Nat) : TxListOut :=
  let off := offset.getD 0
  let m := matchingTxs st mint_id name (basetime.getD 0)
  let rows := match count with
    | some c => (m.drop off).take c
    | none => m
  { count_before := off
    count_after := (m.length : Int) - (off : Int) - (rows.length : Int)
    transactions := rows.map TxRow.toDic
    symbol := symbol }

/-- Error outcomes of a request.  `badRequest` / `notFound` / `conflict`
are the `abort(400/404/409)` paths; `uncaughtValueError` /
`uncaughtNameError` are Python exceptions escaping the handler (a generic
HTTP 500). -/
inductive ApiError where
  | badRequest (msg : String)
  | notFound (msg : String)
  | conflict (msg : String)
  | uncaughtValueError
  | uncaughtNameError
  deriving DecidableEq

/-- The machine-readable error code that the `errorhandler` of the source
(registered for 400/404/409 only) attaches; uncaught exceptions produce no
code at all. -/
def errorCode : ApiError → Option String
  | .badRequest _ => some "Bad Request"
  | .notFound _ => some "Not Found"
  | .conflict _ => some "Conflict"
  | .uncaughtValueError => none
  | .uncaughtNameError => none

/-- Calls to the external collaborators (identity registry and ledger
network) named in the collaborator contracts. -/
inductive ExtEvent where
  | createUserId
  | setCondition
  | setCurrencySpec
  | getCurrencySpec
  | mintIssue
  | mintTransfer
  | mintSwap
  | idMapUpdate
  deriving DecidableEq

/-- Outcome of one request handler: the persisted store (each SQL statement
commits on its own, so writes before a later exception persist), the trace
of external contract calls attempted, and the error if any. -/
structure OpOut where
  store : Store
  events : List ExtEvent
  error : Option ApiError
  deriving DecidableEq

/-- The currency spec held by the external mint (`get_currency_spec`). -/
structure CurrencySpec where
  symbol : String
  decimal : Nat
  deriving DecidableEq

/-- `define_currency` (`POST /currency`).  The id and keypair produced by
the external identity registry are parameters; registration with the
registry and the ledger happens after all validation and before the local
write. -/
def define_currency (st : Store) (contentTypeJson : Bool)
    (name? symbol? : Option String) (new_mint_id : List Nat) (kp : KeyPair) :
    OpOut :=
  if !contentTypeJson then
    ⟨st, [], some (ApiError.badRequest "bad content type")⟩
  else
    match name? with
    | none => ⟨st, [], some (ApiError.badRequest "name is missing")⟩
    | some name =>
      match symbol? with
      | none => ⟨st, [], some (ApiError.badRequest "symbol is missing")⟩
      | some _symbol =>
        if st.user_exists name "currency_table" then
          ⟨st, [], some (ApiError.conflict ("currency " ++ name ++ " is already defined"))⟩
        else if st.user_exists name "user_table" then
          ⟨st, [], some (ApiError.conflict (name ++ " is already defined as a user name"))⟩
        else
          ⟨st.write_user ⟨new_mint_id, name, kp.publicKey, kp.privateKey⟩ "currency_table",
           [ExtEvent.createUserId, ExtEvent.setCondition, ExtEvent.setCurrencySpec], none⟩

/-- `define_user` (`POST /user`). -/
def define_user (st : Store) (name? : Option String) (new_user_id : List Nat)
    (kp : KeyPair) : OpOut :=
  match name? with
  | none => ⟨st, [], some (ApiError.badRequest "name is missing")⟩
  | some name =>
    if st.user_exists name "user_table" then
      ⟨st, [], some (ApiError.conflict ("user " ++ name ++ " is already defined"))⟩
    else if st.user_exists name "currency_table" then
      ⟨st, [], some (ApiError.conflict (name ++ " is already defined as a currency name"))⟩
    else
      ⟨st.write_user ⟨new_user_id, name, kp.publicKey, kp.privateKey⟩ "user_table",
       [ExtEvent.createUserId], none⟩

/-- `issue_to_user` (`POST /issue/<mint_id>`).  The currency spec returned
by the external `get_currency_spec` call and the transaction id and
timestamp returned by the external `issue` are parameters.  The amount is
parsed only after the external `get_currency_spec` call, and an unparsable
amount raises an uncaught `ValueError` there.  On success one row is
appended with an empty `from_name` and the raw amount string. -/
def issue_to_user (st : Store) (mint_id? user_id? : Option (List Nat))
    (amount? : Option String) (spec : CurrencySpec) (txid : List Nat) (ts : Nat) :
    OpOut :=
  match mint_id? with
  | none => ⟨st, [], some (ApiError.badRequest "mint_id is missing")⟩
  | some mid =>
    match st.get_user mid "currency_table" with
    | none => ⟨st, [], some (ApiError.notFound "user/currency is not found")⟩
    | some currency =>
      match user_id? with
      | none => ⟨st, [], some (ApiError.badRequest "user_id is missing")⟩
      | some uid =>
        match amount? with
        | none => ⟨st, [], some (ApiError.badRequest "amount is missing")⟩
        | some amount =>
          match st.get_user uid "user_table" with
          | none => ⟨st, [], some (ApiError.notFound "user/currency is not found")⟩
          | some user =>
            match to_units amount spec.decimal with
            | none => ⟨st, [ExtEvent.getCurrencySpec], some ApiError.uncaughtValueError⟩
            | some _value =>
              ⟨st.write_tx txid ts currency.user_id (Val.text "") (Val.text user.name)
                  amount LABEL_JOINED,
               [ExtEvent.getCurrencySpec, ExtEvent.mintIssue], none⟩

/-- The label-form handling shared by transfer and swap: absent or empty
label text is stored as the empty string (and no label id is derived). -/
def labelText (s_label? : Option String) : String :=
  match s_label? with
  | none => ""
  | some l => if l.length = 0 then "" else l

/-- `transfer_to_user` (`POST /transfer/<mint_id>`).  On success one row is
appended carrying the sender and recipient names and the raw amount
string. -/
def transfer_to_user (st : Store)
    (mint_id? from_user_id? to_user_id? : Option (List Nat))
    (amount? s_label? : Option String) (spec : CurrencySpec) (txid : List Nat)
    (ts : Nat) : OpOut :=
  match mint_id? with
  | none => ⟨st, [], some (ApiError.badRequest "mint_id is missing")⟩
  | some mid =>
    match st.get_user mid "currency_table" with
    | none => ⟨st, [], some (ApiError.notFound "user/currency is not found")⟩
    | some currency =>
      match from_user_id? with
      | none => ⟨st, [], some (ApiError.badRequest "from_user_id is missing")⟩
      | some fid =>
        match to_user_id? with
        | none => ⟨st, [], some (ApiError.badRequest "to_user_id is missing")⟩
        | some tid =>
          match amount? with
          | none => ⟨st, [], some (ApiError.badRequest "amount is missing")⟩
          | some amount =>
            match st.get_user fid "user_table" with
            | none => ⟨st, [], some (ApiError.notFound "user/currency is not found")⟩
            | some from_user =>
              match st.get_user tid "user_table" with
              | none => ⟨st, [], some (ApiError.notFound "user/currency is not found")⟩
              | some to_user =>
                match to_units amount spec.decimal with
                | none => ⟨st, [ExtEvent.getCurrencySpec], some ApiError.uncaughtValueError⟩
                | some _value =>
                  ⟨st.write_tx txid ts currency.user_id (Val.text from_user.name)
                      (Val.text to_user.name) amount (labelText s_label?),
                   [ExtEvent.getCurrencySpec, ExtEvent.mintTransfer], none⟩

/-- `swap_between_users` (`POST /swap/<mint_id>/<counter_mint_id>`).  Both
currency specs and the single external swap transaction's id and timestamp
are parameters.  After the external swap, the first leg's row is written
with the raw id blobs of the two users in the name columns; the derived
counter transaction id is assigned to the local variable `counter_txid`,
but the second insert references the undefined name `counter_tx_id`, so it
raises `NameError` and the second row is never written. -/
def swap_between_users (st : Store)
    (mint_id? counter_mint_id? user_id? counter_user_id? : Option (List Nat))
    (amount? counter_amount? s_label? : Option String)
    (spec counter_spec : CurrencySpec) (txid : List Nat) (ts : Nat) : OpOut :=
  match mint_id? with
  | none => ⟨st, [], some (ApiError.badRequest "mint_id is missing")⟩
  | some mid =>
    match counter_mint_id? with
    | none => ⟨st, [], some (ApiError.badRequest "counter_mint_id is missing")⟩
    | some cmid =>
      match st.get_user mid "currency_table" with
      | none => ⟨st, [], some (ApiError.notFound "user/currency is not found")⟩
      | some currency =>
        match st.get_user cmid "currency_table" with
        | none => ⟨st, [], some (ApiError.notFound "user/currency is not found")⟩
        | some _counter_currency =>
          match user_id? with
          | none => ⟨st, [], some (ApiError.badRequest "user_id is missing")⟩
          | some uid =>
            match counter_user_id? with
            | none => ⟨st, [], some (ApiError.badRequest "counter_user_id is missing")⟩
            | some cuid =>
              match amount? with
              | none => ⟨st, [], some (ApiError.badRequest "amount is missing")⟩
              | some amount =>
                match counter_amount? with
                | none => ⟨st, [], some (ApiError.badRequest "counter_amount is missing")⟩
                | some counter_amount =>
                  match st.get_user uid "user_table" with
                  | none => ⟨st, [], some (ApiError.notFound "user/currency is not found")⟩
                  | some user =>
                    match st.get_user cuid "user_table" with
                    | none => ⟨st, [], some (ApiError.notFound "user/currency is not found")⟩
                    | some counter_user =>
                      match to_units amount spec.decimal with
                      | none =>
                        ⟨st, [ExtEvent.getCurrencySpec, ExtEvent.getCurrencySpec],
                         some ApiError.uncaughtValueError⟩
                      | some _value =>
                        match to_units counter_amount counter_spec.decimal with
                        | none =>
                          ⟨st, [ExtEvent.getCurrencySpec, ExtEvent.getCurrencySpec],
                           some ApiError.uncaughtValueError⟩
                        | some _counter_value =>
                          ⟨st.write_tx txid ts currency.user_id (Val.blob user.user_id)
                              (Val.blob counter_user.user_id) amount (labelText s_label?),
                           [ExtEvent.getCurrencySpec, ExtEvent.getCurrencySpec,
                            ExtEvent.mintSwap],
                           some ApiError.uncaughtNameError⟩

/-- `replace_keypair` (`POST /new-keypair/<user_id>`): the freshly generated
keypair is a parameter; the external registry update precedes the local
`update_user` on `user_table`. -/
def replace_keypair (st : Store) (user_id? : Option (List Nat)) (newkp : KeyPair) :
    OpOut :=
  match user_id? with
  | none => ⟨st, [], some (ApiError.badRequest "user_id is missing")⟩
  | some uid =>
    match st.get_user uid "user_table" with
    | none => ⟨st, [], some (ApiError.notFound "user/currency is not found")⟩
    | some user =>
      ⟨st.update_user
          { user with public_key := newkp.publicKey, private_key := newkp.privateKey }
          "user_table",
       [ExtEvent.idMapUpdate], none⟩

/-- The request-validation error classes of the propagation policy: missing
parameter (and malformed request) and name conflict, as opposed to
not-found and uncaught exceptions. -/
def isValidationErr : ApiError → Bool
  | .badRequest _ => true
  | .conflict _ => true
  | _ => false

/-- An operation outcome that reports validation errors only with an empty
external call trace. -/
def earlyValidation (o : OpOut) : Prop :=
  ∀ e, o.error = some e → isValidationErr e = true → o.events = []

/-- Fixture: a user row. -/
def aliceRow : IdentityRow := ⟨[10], "alice", [3], [4]⟩

/-- Fixture: a user row. -/
def bobRow : IdentityRow := ⟨[11], "bob", [5], [6]⟩

/-- Fixture: a currency row. -/
def coinRow : IdentityRow := ⟨[20], "coin", [7], [8]⟩

/-- Fixture: a currency row. -/
def gemRow : IdentityRow := ⟨[21], "gem", [9], [12]⟩

/-- Fixture: a store with two users, two currencies and an empty
transaction log. -/
def stBase : Store := ⟨[aliceRow, bobRow], [coinRow, gemRow], []⟩

/-- Fixture: two matching transaction rows for mint `[1]`, the later
insertion carrying the later timestamp. -/
def st2 : Store :=
  ⟨[], [], [⟨[1], 5, [1], Val.text "a", Val.text "b", "1", ""⟩,
            ⟨[2], 6, [1], Val.text "c", Val.text "d", "2", ""⟩]⟩

/-- Fixture: two matching transaction rows for mint `[1]` with inverted
timestamps: the row inserted second has the earlier timestamp. -/
def st8 : Store :=
  ⟨[], [], [⟨[1], 9, [1], Val.text "a", Val.text "b", "1", ""⟩,
            ⟨[2], 3, [1], Val.text "c", Val.text "d", "2", ""⟩]⟩

/-- Fixture: twenty-five matching transaction rows for mint `[1]`. -/
def st25 : Store :=
  ⟨[], [], List.replicate 25 ⟨[9], 7, [1], Val.text "a", Val.text "b", "1", ""⟩⟩

/-- Outcomes with an empty event trace report validation errors early
trivially. -/
theorem earlyValidation_nil (s : Store) (e : Option ApiError) :
    earlyValidation ⟨s, [], e⟩ := by
  intro x hx hv
  rfl

/-- Successful outcomes satisfy the early-validation property vacuously. -/
theorem earlyValidation_ok (s : Store) (evs : List ExtEvent) :
    earlyValidation ⟨s, evs, none⟩ := by
  intro x hx hv
  cases hx

/-- Outcomes whose error is not a validation error satisfy the
early-validation property vacuously. -/
theorem earlyValidation_uncaught (s : Store) (evs : List ExtEvent)
    (e : ApiError) (he : isValidationErr e = false) :
    earlyValidation ⟨s, evs, some e⟩ := by
  intro x hx hv
  cases hx
  rw [he] at hv
  cases hv

/-- C1 (code bug): a successfully submitted swap writes only the first
leg's row — with the raw id blobs of the two users in the name columns —
and then fails with `NameError`: the second insert references the undefined
name `counter_tx_id` instead of the derived `counter_txid`, so the second
Transaction Log Entry is never appended. -/
theorem C1_swap_name_error :
    (swap_between_users stBase (some [20]) (some [21]) (some [10]) (some [11])
        (some "1.5") (some "2") none ⟨"CN", 2⟩ ⟨"GM", 0⟩ [99] 1000).error
      = some ApiError.uncaughtNameError ∧
    (swap_between_users stBase (some [20]) (some [21]) (some [10]) (some [11])
        (some "1.5") (some "2") none ⟨"CN", 2⟩ ⟨"GM", 0⟩ [99] 1000).store.tx_table
      = [⟨[99], 1000, [20], Val.blob [10], Val.blob [11], "1.5", ""⟩] := by
  decide

/-- C3 counterexample: issuing with the non-numeric amount string `"xyz"`
fails, but with an uncaught `ValueError` that carries no machine-readable
error code at all (the error handler covers only 400/404/409), not with a
distinguishable `InvalidAmount` error; no entry is appended. -/
theorem C3_counterexample :
    (issue_to_user stBase (some [20]) (some [10]) (some "xyz") ⟨"CN", 2⟩ [99] 1000).error
      = some ApiError.uncaughtValueError ∧
    errorCode ApiError.uncaughtValueError = none ∧
    (issue_to_user stBase (some [20]) (some [10]) (some "xyz") ⟨"CN", 2⟩ [99] 1000).store
      = stBase := by
  decide

/-- C3 (amended): for issue, transfer and swap, an amount string that does
not parse makes the operation fail with an uncaught `ValueError` (no
`InvalidAmount` code exists), and no transaction log entry is appended. -/
theorem C3_unparsable_amount_uncaught :
    (∀ (st : Store) (mid uid : List Nat) (amount : String) (spec : CurrencySpec)
        (txid : List Nat) (ts : Nat) (currency user : IdentityRow),
      st.get_user mid "currency_table" = some currency →
      st.get_user uid "user_table" = some user →
      pyFloat amount = none →
      (issue_to_user st (some mid) (some uid) (some amount) spec txid ts).error
        = some ApiError.uncaughtValueError ∧
      (issue_to_user st (some mid) (some uid) (some amount) spec txid ts).store = st) ∧
    (∀ (st : Store) (mid fid tid : List Nat) (amount : String)
        (s_label? : Option String) (spec : CurrencySpec) (txid : List Nat) (ts : Nat)
        (currency fu tu : IdentityRow),
      st.get_user mid "currency_table" = some currency →
      st.get_user fid "user_table" = some fu →
      st.get_user tid "user_table" = some tu →
      pyFloat amount = none →
      (transfer_to_user st (some mid) (some fid) (some tid) (some amount) s_label?
          spec txid ts).error = some ApiError.uncaughtValueError ∧
      (transfer_to_user st (some mid) (some fid) (some tid) (some amount) s_label?
          spec txid ts).store = st) ∧
    (∀ (st : Store) (mid cmid uid cuid : List Nat) (amount counter_amount : String)
        (s_label? : Option String) (spec cspec : CurrencySpec) (txid : List Nat)
        (ts : Nat) (c cc u cu : IdentityRow),
      st.get_user mid "currency_table" = some c →
      st.get_user cmid "currency_table" = some cc →
      st.get_user uid "user_table" = some u →
      st.get_user cuid "user_table" = some cu →
      (pyFloat amount = none ∨ pyFloat counter_amount = none) →
      (swap_between_users st (some mid) (some cmid) (some uid) (some cuid)
          (some amount) (some counter_amount) s_label? spec cspec txid ts).error
        = some ApiError.uncaughtValueError ∧
      (swap_between_users st (some mid) (some cmid) (some uid) (some cuid)
          (some amount) (some counter_amount) s_label? spec cspec txid ts).store = st) := by
  refine ⟨?_, ?_, ?_⟩
  · intro st mid uid amount spec txid ts currency user hc hu ha
    have hto : to_units amount spec.decimal = none := by simp [to_units, ha]
    simp [issue_to_user, hc, hu, hto]
  · intro st mid fid tid amount s_label? spec txid ts currency fu tu hc hf ht ha
    have hto : to_units amount spec.decimal = none := by simp [to_units, ha]
    simp [transfer_to_user, hc, hf, ht, hto]
  · intro st mid cmid uid cuid amount counter_amount s_label? spec cspec txid ts
      c cc u cu hc hcc hu hcu ha
    cases ha with
    | inl h =>
      have hto : to_units amount spec.decimal = none := by simp [to_units, h]
      simp [swap_between_users, hc, hcc, hu, hcu, hto]
    | inr h =>
      have hto : to_units counter_amount cspec.decimal = none := by
        simp [to_units, h]
      cases hta : to_units amount spec.decimal with
      | none => simp [swap_between_users, hc, hcc, hu, hcu, hta]
      | some v => simp [swap_between_users, hc, hcc, hu, hcu, hta, hto]

/-- Witness for the amended C3 statement: issue with amount `"abc"` at a
concrete store. -/
theorem C3_witness :
    (issue_to_user stBase (some [20]) (some [10]) (some "abc") ⟨"CN", 2⟩ [99] 1000).error
      = some ApiError.uncaughtValueError ∧
    (issue_to_user stBase (some [20]) (some [10]) (some "abc") ⟨"CN", 2⟩ [99] 1000).store
      = stBase :=
  C3_unparsable_amount_uncaught.1 stBase [20] [10] "abc" ⟨"CN", 2⟩ [99] 1000
    coinRow aliceRow rfl rfl rfl

/-- C4 counterexample: issuing with the unparsable amount `"abc"` at a
valid currency and user triggers the unparsable-amount failure (the spec's
`InvalidAmount` condition), but only after the external `get_currency_spec`
call has already been attempted — the event trace is nonempty. -/
theorem C4_counterexample :
    (issue_to_user stBase (some [20]) (some [10]) (some "abc") ⟨"CN", 2⟩ [99] 1000).error
      = some ApiError.uncaughtValueError ∧
    (issue_to_user stBase (some [20]) (some [10]) (some "abc") ⟨"CN", 2⟩ [99] 1000).events
      = [ExtEvent.getCurrencySpec] := by
  decide

/-- C4 (amended): the `MissingParameter` and `Conflict` validation errors
are always reported with an empty external call trace, i.e. before any
external collaborator call, in all five mutating operations; only the
unparsable-amount failure escapes this policy. -/
theorem C4_early_validation_before_external :
    (∀ (st : Store) (ct : Bool) (n? s? : Option String) (i : List Nat) (k : KeyPair),
      earlyValidation (define_currency st ct n? s? i k)) ∧
    (∀ (st : Store) (n? : Option String) (i : List Nat) (k : KeyPair),
      earlyValidation (define_user st n? i k)) ∧
    (∀ (st : Store) (m? u? : Option (List Nat)) (a? : Option String)
        (spec : CurrencySpec) (txid : List Nat) (ts : Nat),
      earlyValidation (issue_to_user st m? u? a? spec txid ts)) ∧
    (∀ (st : Store) (m? f? t? : Option (List Nat)) (a? l? : Option String)
        (spec : CurrencySpec) (txid : List Nat) (ts : Nat),
      earlyValidation (transfer_to_user st m? f? t? a? l? spec txid ts)) ∧
    (∀ (st : Store) (m? cm? u? cu? : Option (List Nat)) (a? ca? l? : Option String)
        (spec cspec : CurrencySpec) (txid : List Nat) (ts : Nat),
      earlyValidation (swap_between_users st m? cm? u? cu? a? ca? l? spec cspec txid ts)) := by
  refine ⟨?_, ?_, ?_, ?_, ?_⟩
  · intro st ct n? s? i k
    unfold define_currency
    repeat' split
    all_goals first
      | exact earlyValidation_nil _ _
      | exact earlyValidation_ok _ _
      | exact earlyValidation_uncaught _ _ _ rfl
  · intro st n? i k
    unfold define_user
    repeat' split
    all_goals first
      | exact earlyValidation_nil _ _
      | exact earlyValidation_ok _ _
      | exact earlyValidation_uncaught _ _ _ rfl
  · intro st m? u? a? spec txid ts
    unfold issue_to_user
    repeat' split
    all_goals first
      | exact earlyValidation_nil _ _
      | exact earlyValidation_ok _ _
      | exact earlyValidation_uncaught _ _ _ rfl
  · intro st m? f? t? a? l? spec txid ts
    unfold transfer_to_user
    repeat' split
    all_goals first
      | exact earlyValidation_nil _ _
      | exact earlyValidation_ok _ _
      | exact earlyValidation_uncaught _ _ _ rfl
  · intro st m? cm? u? cu? a? ca? l? spec cspec txid ts
    unfold swap_between_users
    repeat' split
    all_goals first
      | exact earlyValidation_nil _ _
      | exact earlyValidation_ok _ _
      | exact earlyValidation_uncaught _ _ _ rfl

/-- Witness for the amended C4 statement: a missing name in `define_user`
is reported with an empty external call trace. -/
theorem C4_witness :
    (define_user stBase none [30] ⟨[1], [2]⟩).events = [] :=
  C4_early_validation_before_external.2.1 stBase none [30] ⟨[1], [2]⟩
    (ApiError.badRequest "name is missing") rfl rfl

/-- Writing an identity to the currency table appends to the currency
table (and touches nothing else). -/
theorem write_user_currency (st : Store) (u : IdentityRow) :
    st.write_user u "currency_table"
      = { st with currency_table := st.currency_table ++ [u] } := rfl

/-- Writing an identity to the user table appends to the user table (and
touches nothing else). -/
theorem write_user_user (st : Store) (u : IdentityRow) :
    st.write_user u "user_table"
      = { st with user_table := st.user_table ++ [u] } := rfl

/-- A successful `define_currency` means both cross-namespace name checks
passed and exactly the new currency row was appended. -/
theorem define_currency_success (st : Store) (X sym : String)
    (id1 : List Nat) (kp1 : KeyPair)
    (h : (define_currency st true (some X) (some sym) id1 kp1).error = none) :
    st.user_exists X "currency_table" = false ∧
    st.user_exists X "user_table" = false ∧
    (define_currency st true (some X) (some sym) id1 kp1).store
      = { st with currency_table :=
            st.currency_table ++ [⟨id1, X, kp1.publicKey, kp1.privateKey⟩] } := by
  simp only [define_currency, Bool.not_true, Bool.false_eq_true, if_false] at h ⊢
  split at h
  · simp at h
  · split at h
    · simp at h
    · rename_i hc1 hc2
      simp only [Bool.not_eq_true] at hc1 hc2
      simp [hc1, hc2, write_user_currency]

/-- A successful `define_user` means both cross-namespace name checks
passed and exactly the new user row was appended. -/
theorem define_user_success (st : Store) (X : String) (id2 : List Nat)
    (kp2 : KeyPair)
    (h : (define_user st (some X) id2 kp2).error = none) :
    st.user_exists X "user_table" = false ∧
    st.user_exists X "currency_table" = false ∧
    (define_user st (some X) id2 kp2).store
      = { st with user_table :=
            st.user_table ++ [⟨id2, X, kp2.publicKey, kp2.privateKey⟩] } := by
  simp only [define_user] at h ⊢
  split at h
  · simp at h
  · split at h
    · simp at h
    · rename_i hc1 hc2
      simp only [Bool.not_eq_true] at hc1 hc2
      simp [hc1, hc2, write_user_user]

/-- C6: after defining a currency named `X`, defining a user named `X`
fails with `Conflict` and writes nothing; and after defining a user named
`X`, defining a currency named `X` fails with `Conflict` and writes
nothing. -/
theorem C6_cross_namespace_conflict (st : Store) (X sym : String)
    (id1 id2 : List Nat) (kp1 kp2 : KeyPair) :
    ((define_currency st true (some X) (some sym) id1 kp1).error = none →
      (define_user (define_currency st true (some X) (some sym) id1 kp1).store
          (some X) id2 kp2).error
        = some (ApiError.conflict (X ++ " is already defined as a currency name")) ∧
      (define_user (define_currency st true (some X) (some sym) id1 kp1).store
          (some X) id2 kp2).store
        = (define_currency st true (some X) (some sym) id1 kp1).store) ∧
    ((define_user st (some X) id2 kp2).error = none →
      (define_currency (define_user st (some X) id2 kp2).store true (some X)
          (some sym) id1 kp1).error
        = some (ApiError.conflict (X ++ " is already defined as a user name")) ∧
      (define_currency (define_user st (some X) id2 kp2).store true (some X)
          (some sym) id1 kp1).store
        = (define_user st (some X) id2 kp2).store) := by
  constructor
  · intro h
    obtain ⟨hc1, hc2, hstore⟩ := define_currency_success st X sym id1 kp1 h
    rw [hstore]
    have h1 : ({ st with currency_table :=
        st.currency_table ++ [⟨id1, X, kp1.publicKey, kp1.privateKey⟩] } : Store).user_exists
          X "user_table" = false := hc2
    have h2 : ({ st with currency_table :=
        st.currency_table ++ [⟨id1, X, kp1.publicKey, kp1.privateKey⟩] } : Store).user_exists
          X "currency_table" = true := by
      simp [Store.user_exists, Store.tableOf, List.any_append]
    simp [define_user, h1, h2]
  · intro h
    obtain ⟨hc1, hc2, hstore⟩ := define_user_success st X id2 kp2 h
    rw [hstore]
    have h1 : ({ st with user_table :=
        st.user_table ++ [⟨id2, X, kp2.publicKey, kp2.privateKey⟩] } : Store).user_exists
          X "currency_table" = false := hc2
    have h2 : ({ st with user_table :=
        st.user_table ++ [⟨id2, X, kp2.publicKey, kp2.privateKey⟩] } : Store).user_exists
          X "user_table" = true := by
      simp [Store.user_exists, Store.tableOf, List.any_append]
    simp [define_currency, h1, h2]

/-- Witness for C6 at a concrete store and name. -/
theorem C6_witness :
    (define_user (define_currency stBase true (some "pearl") (some "PL") [30]
          ⟨[1], [2]⟩).store (some "pearl") [31] ⟨[2], [3]⟩).error
      = some (ApiError.conflict ("pearl" ++ " is already defined as a currency name")) ∧
    (define_user (define_currency stBase true (some "pearl") (some "PL") [30]
          ⟨[1], [2]⟩).store (some "pearl") [31] ⟨[2], [3]⟩).store
      = (define_currency stBase true (some "pearl") (some "PL") [30] ⟨[1], [2]⟩).store :=
  (C6_cross_namespace_conflict stBase "pearl" "PL" [30] [31] ⟨[1], [2]⟩ ⟨[2], [3]⟩).1
    (by decide)

/-- C7: a successful issue of the amount string `"10.50"` (currency decimal
2) appends one row, and a history query for that currency on a store with
no prior matching rows returns exactly that entry: empty `from_name`, the
recipient's name as `to_name`, and the raw amount string `"10.50"`. -/
theorem C7_issue_history (st : Store) (mid uid : List Nat)
    (currency user : IdentityRow) (symbol : String) (txid : List Nat) (ts : Nat)
    (hc : st.get_user mid "currency_table" = some currency)
    (hu : st.get_user uid "user_table" = some user)
    (hempty : st.tx_table.filter (txMatches currency.user_id none 0) = []) :
    (issue_to_user st (some mid) (some uid) (some "10.50") ⟨symbol, 2⟩ txid ts).error
      = none ∧
    (Store.get_tx_list
        (issue_to_user st (some mid) (some uid) (some "10.50") ⟨symbol, 2⟩ txid ts).store
        currency.user_id symbol none none none none).transactions
      = [⟨ts, Val.text "", Val.text user.name, "10.50", LABEL_JOINED⟩] := by
  obtain ⟨v, hv⟩ : ∃ v, to_units "10.50" 2 = some v := ⟨_, rfl⟩
  have hout : issue_to_user st (some mid) (some uid) (some "10.50") ⟨symbol, 2⟩ txid ts
      = ⟨st.write_tx txid ts currency.user_id (Val.text "") (Val.text user.name)
            "10.50" LABEL_JOINED,
         [ExtEvent.getCurrencySpec, ExtEvent.mintIssue], none⟩ := by
    simp [issue_to_user, hc, hu, hv]
  rw [hout]
  refine ⟨rfl, ?_⟩
  have hm : txMatches currency.user_id none 0
      ⟨txid, ts, currency.user_id, Val.text "", Val.text user.name, "10.50",
        LABEL_JOINED⟩ = true := by
    simp [txMatches]
  simp only [Store.get_tx_list, matchingTxs, Store.write_tx, Option.getD_none]
  rw [List.filter_append, hempty]
  simp [hm, TxRow.toDic]

/-- Witness for C7 at a concrete store, currency and recipient. -/
theorem C7_witness :
    (issue_to_user stBase (some [20]) (some [10]) (some "10.50") ⟨"CN", 2⟩ [99] 1000).error
      = none ∧
    (Store.get_tx_list
        (issue_to_user stBase (some [20]) (some [10]) (some "10.50") ⟨"CN", 2⟩ [99] 1000).store
        [20] "CN" none none none none).transactions
      = [⟨1000, Val.text "", Val.text "alice", "10.50", LABEL_JOINED⟩] :=
  C7_issue_history stBase [20] [10] coinRow aliceRow "CN" [99] 1000 rfl rfl rfl

/-- C9: rotating the keypair of an existing user changes only the
`public_key`/`private_key` fields of the rows carrying that user's id: the
currency table and the transaction log are untouched, and every resulting
user row keeps the `user_id` and `name` of a stored row. -/
theorem C9_rotate_frame (st : Store) (uid : List Nat) (user : IdentityRow)
    (kp : KeyPair) (h : st.get_user uid "user_table" = some user) :
    (replace_keypair st (some uid) kp).error = none ∧
    (replace_keypair st (some uid) kp).store.currency_table = st.currency_table ∧
    (replace_keypair st (some uid) kp).store.tx_table = st.tx_table ∧
    (replace_keypair st (some uid) kp).store.user_table
      = st.user_table.map (fun r =>
          if r.user_id = user.user_id then
            { r with public_key := kp.publicKey, private_key := kp.privateKey }
          else r) ∧
    ∀ r ∈ (replace_keypair st (some uid) kp).store.user_table,
      ∃ r0 ∈ st.user_table, r.user_id = r0.user_id ∧ r.name = r0.name := by
  have hout : replace_keypair st (some uid) kp
      = ⟨st.update_user
            { user with public_key := kp.publicKey, private_key := kp.privateKey }
            "user_table",
         [ExtEvent.idMapUpdate], none⟩ := by
    simp [replace_keypair, h]
  rw [hout]
  refine ⟨rfl, rfl, rfl, rfl, ?_⟩
  intro r hr
  simp only [Store.update_user] at hr
  norm_num at hr
  obtain ⟨r0, h0, rfl⟩ := hr
  refine ⟨r0, h0, ?_⟩
  by_cases hid : r0.user_id = user.user_id <;> simp [hid]

/-- Witness for C9 at a concrete store, user and keypair. -/
theorem C9_witness :
    (replace_keypair stBase (some [10]) ⟨[50], [60]⟩).error = none ∧
    (replace_keypair stBase (some [10]) ⟨[50], [60]⟩).store.currency_table
      = stBase.currency_table ∧
    (replace_keypair stBase (some [10]) ⟨[50], [60]⟩).store.tx_table
      = stBase.tx_table ∧
    (replace_keypair stBase (some [10]) ⟨[50], [60]⟩).store.user_table
      = stBase.user_table.map (fun r =>
          if r.user_id = aliceRow.user_id then
            { r with public_key := [50], private_key := [60] }
          else r) ∧
    ∀ r ∈ (replace_keypair stBase (some [10]) ⟨[50], [60]⟩).store.user_table,
      ∃ r0 ∈ stBase.user_table, r.user_id = r0.user_id ∧ r.name = r0.name :=
  C9_rotate_frame stBase [10] aliceRow ⟨[50], [60]⟩ rfl

/-- C2 counterexample: on a store with two rows matching mint `[1]`, a query
with `offset = 1` and no limit returns both rows — the first matching row is
not skipped, contradicting the claim that the remaining one row would be
returned. -/
theorem C2_counterexample :
    (Store.get_tx_list st2 [1] "S" none none (some 1) none).transactions.length = 2 ∧
    (Store.get_tx_list st2 [1] "S" none none (some 1) none).transactions.length ≠
      (matchingTxs st2 [1] none 0).length - 1 := by
  decide

/-- C2 (amended): when an offset is supplied but no limit, no `limit` clause
is emitted, so the offset is ignored for row selection: every matching row
is returned, and `count_after` comes out as `-offset`. -/
theorem C2_offset_ignored_without_limit (st : Store) (mint_id : List Nat)
    (symbol : String) (name : Option String) (o : Nat) (bt : Option Nat)
    (ho : 0 < o) :
    (Store.get_tx_list st mint_id symbol name none (some o) bt).transactions
      = (matchingTxs st mint_id name (bt.getD 0)).map TxRow.toDic ∧
    (Store.get_tx_list st mint_id symbol name none (some o) bt).count_after
      = -(o : Int) := by
  constructor
  · rfl
  · simp only [Store.get_tx_list, Option.getD_some]
    omega

/-- Witness for the amended C2 statement at a concrete store and offset. -/
theorem C2_witness :
    (Store.get_tx_list st2 [1] "S" none none (some 1) none).transactions
      = (matchingTxs st2 [1] none 0).map TxRow.toDic ∧
    (Store.get_tx_list st2 [1] "S" none none (some 1) none).count_after
      = -(1 : Int) :=
  C2_offset_ignored_without_limit st2 [1] "S" none 1 none (by decide)

/-- C5: with both an offset and a limit, the query skips the first `o`
matching rows and returns `min c (N - o)` rows (`N` the unpaginated
matching count, subtraction truncated at zero), and reports
`count_after = N - o - returned`; in particular 25 matching rows with
`offset = 10`, `limit = 5` yield 5 rows and `count_after = 10`. -/
theorem C5_pagination :
    (∀ (st : Store) (mint_id : List Nat) (symbol : String) (name : Option String)
        (c o : Nat) (bt : Option Nat),
      (Store.get_tx_list st mint_id symbol name (some c) (some o) bt).transactions.length
        = min c ((matchingTxs st mint_id name (bt.getD 0)).length - o) ∧
      (Store.get_tx_list st mint_id symbol name (some c) (some o) bt).count_after
        = ((matchingTxs st mint_id name (bt.getD 0)).length : Int) - (o : Int)
          - ((Store.get_tx_list st mint_id symbol name (some c) (some o) bt).transactions.length : Int)) ∧
    (Store.get_tx_list st25 [1] "S" none (some 5) (some 10) none).transactions.length = 5 ∧
    (Store.get_tx_list st25 [1] "S" none (some 5) (some 10) none).count_after = 10 := by
  refine ⟨?_, by decide, by decide⟩
  intro st mint_id symbol name c o bt
  constructor
  · simp [Store.get_tx_list]
  · simp [Store.get_tx_list]

/-- C10: `count_before + count_after + returned` always equals the
unpaginated matching count (the identity holds by construction over the
integers), and `count_after` can be negative — here a query with offset 5
over an empty matching set reports `count_after = -5`. -/
theorem C10_count_identity :
    (∀ (st : Store) (mint_id : List Nat) (symbol : String) (name : Option String)
        (count offset basetime : Option Nat),
      ((Store.get_tx_list st mint_id symbol name count offset basetime).count_before : Int)
        + (Store.get_tx_list st mint_id symbol name count offset basetime).count_after
        + ((Store.get_tx_list st mint_id symbol name count offset basetime).transactions.length : Int)
        = ((matchingTxs st mint_id name (basetime.getD 0)).length : Int)) ∧
    (Store.get_tx_list stBase [20] "S" none none (some 5) none).count_after < 0 := by
  refine ⟨?_, by decide⟩
  intro st mint_id symbol name count offset basetime
  simp only [Store.get_tx_list, List.length_map]
  omega

/-- C8: query results are ordered by reverse storage-insertion order, not by
timestamp: every result page is a sublist of the reversed matching list; for
an unlimited query the row at result position `k` is the matching row at
insertion position `N - 1 - k`, independent of timestamps; and on a store
whose later-inserted row has the smaller timestamp, the later-inserted row
still comes first. -/
theorem C8_reverse_insertion_order :
    (∀ (st : Store) (mint_id : List Nat) (symbol : String) (name : Option String)
        (count offset bt : Option Nat),
      List.Sublist (Store.get_tx_list st mint_id symbol name count offset bt).transactions
        ((matchingTxs st mint_id name (bt.getD 0)).map TxRow.toDic)) ∧
    (∀ (st : Store) (mint_id : List Nat) (symbol : String) (name : Option String)
        (bt k : Nat), k < (matchingTxs st mint_id name bt).length →
      (Store.get_tx_list st mint_id symbol name none none (some bt)).transactions[k]?
        = ((st.tx_table.filter (txMatches mint_id name bt))[(st.tx_table.filter (txMatches mint_id name bt)).length - 1 - k]?).map
            TxRow.toDic) ∧
    (Store.get_tx_list st8 [1] "S" none none none none).transactions
      = [⟨3, Val.text "c", Val.text "d", "2", ""⟩, ⟨9, Val.text "a", Val.text "b", "1", ""⟩] := by
  refine ⟨?_, ?_, by decide⟩
  · intro st mint_id symbol name count offset bt
    cases count with
    | none => exact List.Sublist.refl _
    | some c =>
      exact (((List.take_sublist _ _).trans (List.drop_sublist _ _)).map TxRow.toDic)
  · intro st mint_id symbol name bt k hk
    show ((matchingTxs st mint_id name bt).map TxRow.toDic)[k]? = _
    rw [List.getElem?_map]
    show ((st.tx_table.filter (txMatches mint_id name bt)).reverse[k]?).map TxRow.toDic = _
    rw [List.getElem?_reverse]
    simpa [matchingTxs] using hk

/-- Witness for the ordering statement of C8 at a concrete store and index. -/
theorem C8_witness :
    (Store.get_tx_list st8 [1] "S" none none none (some 0)).transactions[0]?
      = ((st8.tx_table.filter (txMatches [1] none 0))[(st8.tx_table.filter (txMatches [1] none 0)).length - 1 - 0]?).map
          TxRow.toDic :=
  C8_reverse_insertion_order.2.1 st8 [1] "S" none 0 0 (by decide)

end Pay
